import Mathlib

/-!
Shallow embedding of the gcs-testbench storage emulator (src/server.py)
together with the parts of its entity model that server.py calls into.
The helper modules gcs_object.py, gcs_upload.py, gcs_bucket.py and utils.py
are not part of the given sources; every definition standing in for one of
them is marked `Modelled from the spec:` and follows the specification text.
Byte strings are lists of byte values; HTTP aborts and Python runtime
errors are explicit `PyError` values.
-/

/-- Byte strings (Python `bytes`) as lists of byte values. -/
abbrev Bytes := List Nat

deriving instance DecidableEq for Except

/-- Observable failure of a handler: `abort status msg` models
`utils.abort(status, msg)` (an HTTP error response), while
`attributeErrorNone` models the unhandled Python `AttributeError` raised
when an attribute is read from `None`. -/
inductive PyError where
  | abort (status : Nat) (msg : String)
  | attributeErrorNone
  deriving Repr, DecidableEq

/-- Caller-supplied generation/metageneration preconditions (section 4.2). -/
structure PreconditionArgs where
  ifGenerationMatch : Option Nat := none
  ifGenerationNotMatch : Option Nat := none
  ifMetagenerationMatch : Option Nat := none
  ifMetagenerationNotMatch : Option Nat := none
  deriving Repr, DecidableEq

/-- The metadata fields of an object resource that the claims depend on. -/
structure ObjectMetadata where
  bucket : String
  name : String
  generation : Nat
  metageneration : Nat
  deriving Repr, DecidableEq

/-- A stored object: its metadata record and its content bytes. -/
structure StoredObject where
  metadata : ObjectMetadata
  media : Bytes
  deriving Repr, DecidableEq

/-- Registry key of an object entry: (bucket name, object name, generation),
fixed when the entry is inserted (section 4.1 keys objects by name and
generation). -/
structure ObjKey where
  bucket : String
  name : String
  generation : Nat
  deriving Repr, DecidableEq

/-- The part of the gRPC `InsertObjectSpec` message the claims depend on:
the target resource's bucket and name plus the caller-supplied
preconditions. -/
structure InsertSpec where
  bucket : String
  name : String
  preconditions : PreconditionArgs
  deriving Repr, DecidableEq

/-- An in-progress write (section 3, Upload): identifier, target metadata,
accumulated buffer, committed size, completion flag, and the preconditions
captured when the write began. -/
structure Upload where
  upload_id : String
  metadata : ObjectMetadata
  media : Bytes
  committed_size : Nat
  complete : Bool
  args : PreconditionArgs
  deriving Repr, DecidableEq

/-- The Entity Store: bucket names, object entries (insertion ordered),
the last generation ever issued per (bucket, name), and in-flight uploads. -/
structure State where
  buckets : List String
  objects : List (ObjKey × StoredObject)
  genCounter : List ((String × String) × Nat)
  uploads : List Upload
  deriving Repr, DecidableEq

/-- Modelled from the spec: the generation counter of the Generation &
Precondition Engine, recording the largest generation previously issued for
a (bucket, name) key (section 4.2: generations are never reused, even
across deletions). -/
def lastGeneration (st : State) (bucket name : String) : Nat :=
  match st.genCounter.find? (fun e => e.1.1 == bucket && e.1.2 == name) with
  | some e => e.2
  | none => 0

/-- Record a newly issued generation for a (bucket, name) key. -/
def setLastGeneration (st : State) (bucket name : String) (g : Nat) : State :=
  { st with genCounter :=
      ((bucket, name), g) ::
        st.genCounter.filter (fun e => !(e.1.1 == bucket && e.1.2 == name)) }

/-- Live object entries under a (bucket, name) key. -/
def liveVersions (st : State) (bucket name : String) : List (ObjKey × StoredObject) :=
  st.objects.filter (fun e => e.1.bucket == bucket && e.1.name == name)

/-- Modelled from the spec: lookup by name returns the latest live
generation (section 4.1). -/
def latestVersion (st : State) (bucket name : String) : Option StoredObject :=
  (liveVersions st bucket name).foldl
    (fun acc e =>
      match acc with
      | none => some e.2
      | some o => if o.metadata.generation < e.2.metadata.generation then some e.2 else some o)
    none

/-- Current generation of the latest live entry of a key, 0 when none. -/
def currentGeneration (st : State) (bucket name : String) : Nat :=
  match latestVersion st bucket name with
  | some o => o.metadata.generation
  | none => 0

/-- Current metageneration of the latest live entry of a key, 0 when none. -/
def currentMetageneration (st : State) (bucket name : String) : Nat :=
  match latestVersion st bucket name with
  | some o => o.metadata.metageneration
  | none => 0

/-- A supplied match-precondition fails when the actual value differs. -/
def failsMatch (expected : Option Nat) (actual : Nat) : Bool :=
  match expected with
  | some m => actual != m
  | none => false

/-- A supplied not-match-precondition fails when the actual value agrees. -/
def failsNotMatch (expected : Option Nat) (actual : Nat) : Bool :=
  match expected with
  | some m => actual == m
  | none => false

/-- Whether any supplied precondition fails against the current entity
state of the (bucket, name) key. -/
def preconditionsFail (st : State) (bucket name : String) (args : PreconditionArgs) : Bool :=
  failsMatch args.ifGenerationMatch (currentGeneration st bucket name) ||
  failsNotMatch args.ifGenerationNotMatch (currentGeneration st bucket name) ||
  failsMatch args.ifMetagenerationMatch (currentMetageneration st bucket name) ||
  failsNotMatch args.ifMetagenerationNotMatch (currentMetageneration st bucket name)

/-- Modelled from the spec: `utils.check_object_generation` (utils.py is not
in src/), the Generation & Precondition Engine of section 4.2: every
supplied precondition is evaluated against the current entity state before
any mutation; a failing one rejects with PreconditionFailed (HTTP 412). -/
def checkObjectGeneration (st : State) (bucket name : String) (args : PreconditionArgs) :
    Except PyError Unit :=
  if preconditionsFail st bucket name args then
    Except.error (PyError.abort 412 ("Precondition failed"))
  else Except.ok ()

/-- Modelled from the spec: `gcs_object.Object.lookup` (gcs_object.py is not
in src/): by-name lookup returns the latest live generation unless a
specific generation is requested; a missing object is NotFound (404) and a
failing `ifGenerationMatch` is PreconditionFailed (412) (sections 4.1, 4.2). -/
def objectLookup (st : State) (bucket name : String)
    (generation ifGenerationMatch : Option Nat) : Except PyError StoredObject :=
  let obj? :=
    match generation with
    | some g =>
      (st.objects.find?
        (fun (e : ObjKey × StoredObject) =>
          e.1.bucket == bucket && e.1.name == name && e.1.generation == g)).map Prod.snd
    | none => latestVersion st bucket name
  match obj? with
  | none => Except.error (PyError.abort 404 ("Object not found"))
  | some o =>
    match ifGenerationMatch with
    | some m =>
      if o.metadata.generation = m then Except.ok o
      else Except.error (PyError.abort 412 ("Precondition failed"))
    | none => Except.ok o

/-- Modelled from the spec: `gcs_object.Object.__init__` / the Entity Store
createObject path (gcs_object.py is not in src/): creation goes through the
Generation & Precondition Engine, then assigns a generation strictly
greater than any previously issued for (bucket, name) and metageneration 1,
and inserts the new entry (sections 4.1-4.3). -/
def objectCreate (st : State) (m : ObjectMetadata) (media : Bytes)
    (args : PreconditionArgs) : Except PyError (State × StoredObject) :=
  match checkObjectGeneration st m.bucket m.name args with
  | Except.error e => Except.error e
  | Except.ok _ =>
    let g := lastGeneration st m.bucket m.name + 1
    let meta : ObjectMetadata := { m with generation := g, metageneration := 1 }
    let obj : StoredObject := { metadata := meta, media := media }
    let st := setLastGeneration st m.bucket m.name g
    Except.ok ({ st with objects := st.objects ++ [(⟨m.bucket, m.name, g⟩, obj)] }, obj)

/-- Find an in-flight upload by its identifier. -/
def uploadLookup (uploads : List Upload) (id : String) : Option Upload :=
  uploads.find? (fun u => u.upload_id == id)

/-- Modelled from the spec: `gcs_upload.Upload.lookup` (gcs_upload.py is not
in src/): a missing upload id is a NotFound condition (section 7). -/
def uploadLookupE (st : State) (id : String) : Except PyError Upload :=
  match uploadLookup st.uploads id with
  | some u => Except.ok u
  | none => Except.error (PyError.abort 404 ("Upload not found"))

/-- Replace the registry entry carrying the same upload id (the Python code
mutates the shared Upload object in place). -/
def setUpload (st : State) (u : Upload) : State :=
  { st with uploads :=
      st.uploads.map (fun v => if v.upload_id == u.upload_id then u else v) }

/-- Modelled from the spec: `gcs_upload.Upload.__init__` (gcs_upload.py is
not in src/): a new Upload starts OPEN with an empty accumulated buffer,
committed size 0, and carries the caller-supplied spec (section 3,
section 4.3). -/
def newUpload (spec : InsertSpec) (uid : String) : Upload :=
  { upload_id := uid,
    metadata := { bucket := spec.bucket, name := spec.name, generation := 0, metageneration := 0 },
    media := [],
    committed_size := 0,
    complete := false,
    args := spec.preconditions }

/-- One resumable chunk call's payload: content bytes and the final flag. -/
structure Chunk where
  content : Bytes
  finalChunk : Bool
  deriving Repr, DecidableEq

/-- Modelled from the spec: `gcs_upload.Upload.process_request`
(gcs_upload.py is not in src/), section 4.3: a chunk call appends the bytes
to the buffer, updates `committed_size`, and transitions to COMPLETE only
when the caller marks the chunk as final. -/
def processChunk (u : Upload) (c : Chunk) : Upload :=
  let media := u.media ++ c.content
  { u with media := media,
           committed_size := media.length,
           complete := u.complete || c.finalChunk }

/-- `StartResumableWrite` (src/server.py lines 127-133): creates an OPEN
upload and returns its id; the id itself is generated inside gcs_upload and
is passed in here as a parameter. -/
def startResumableWrite (st : State) (spec : InsertSpec) (uid : String) : State × String :=
  ({ st with uploads := st.uploads ++ [newUpload spec uid] }, uid)

/-- `QueryWriteStatus` (src/server.py lines 135-139): returns the upload's
committed_size and complete flag verbatim. -/
def queryWriteStatus (st : State) (uid : String) : Except PyError (Nat × Bool) :=
  match uploadLookupE st uid with
  | Except.error e => Except.error e
  | Except.ok u => Except.ok (u.committed_size, u.complete)

/-- The `first_message` oneof of a gRPC `InsertObjectRequest`. -/
inductive FirstMessage where
  | uploadId (id : String)
  | insertObjectSpec (spec : InsertSpec)
  deriving Repr, DecidableEq

/-- One message of the gRPC `InsertObject` stream: the oneof (absent when
the message sets neither variant, as `WhichOneof` then returns `None`),
the `checksummed_data.content` bytes, and the `finish_write` flag. -/
structure InsertObjectRequest where
  firstMessage : Option FirstMessage
  content : Bytes
  finishWrite : Bool
  deriving Repr, DecidableEq

/-- The message loop of `StorageServicer.InsertObject` (src/server.py lines
93-110): each message may rebind `upload` through the oneof, then its
content is appended (`upload.media += ...; upload.committed_size =
len(upload.media)`), and the loop breaks on the first `finish_write`.
Reading `upload.media` while `upload` is `None` is the Python
AttributeError. -/
def insertObjectLoop (st : State) :
    Option Upload → List InsertObjectRequest → Except PyError (Option Upload)
  | upload, [] => Except.ok upload
  | upload, r :: rest =>
    let step : Except PyError (Option Upload) :=
      match r.firstMessage with
      | some (FirstMessage.uploadId id) =>
        match uploadLookup st.uploads id with
        | some u => Except.ok (some u)
        | none => Except.error (PyError.abort 404 ("Upload not found"))
      | some (FirstMessage.insertObjectSpec s) => Except.ok (some (newUpload s ("")))
      | none => Except.ok upload
    match step with
    | Except.error e => Except.error e
    | Except.ok none => Except.error PyError.attributeErrorNone
    | Except.ok (some u) =>
      let media := u.media ++ r.content
      let u := { u with media := media, committed_size := media.length }
      if r.finishWrite then Except.ok (some { u with complete := true })
      else insertObjectLoop st (some u) rest

/-- `StorageServicer.InsertObject` (src/server.py lines 91-114): run the
message loop; afterwards `if not upload.complete: abort(400, ...)` (again an
AttributeError when `upload` is still `None`), else the completed upload is
materialized. The materialization `gcs_object.Object(upload.metadata,
upload.media)` lives in gcs_object.py, which is not in src/; it is modelled
from the spec (section 4.3, Materialization): converting a completed Upload
into an Object always goes through the Generation & Precondition Engine
with the caller-supplied preconditions captured by the upload. -/
def insertObject (st : State) (msgs : List InsertObjectRequest) :
    Except PyError (State × StoredObject) :=
  match insertObjectLoop st none msgs with
  | Except.error e => Except.error e
  | Except.ok none => Except.error PyError.attributeErrorNone
  | Except.ok (some u) =>
    if !u.complete then Except.error (PyError.abort 400 ("Request does not set finish_write"))
    else objectCreate st u.metadata u.media u.args

/-- Response of a resumable chunk call: the finished object's resource, or
the non-final status report carrying the current committed size. -/
inductive UploadResponse where
  | objectRest (o : StoredObject)
  | statusRest (committed : Nat)
  deriving Repr, DecidableEq

/-- `resumable_upload_chunk` (src/server.py lines 567-587): missing
upload_id aborts 400; the chunk is handed to the upload's processing
(modelled by `processChunk`; the early-return branch of src line 574 is for
a response produced inside gcs_upload and is not reachable in this model);
when the upload became complete, the preconditions captured at start are
re-checked through the engine (src lines 579-581) and the object is
created; otherwise the current status is returned. -/
def resumable_upload_chunk (st : State) (upload_id : Option String) (c : Chunk) :
    Except PyError (State × UploadResponse) :=
  match upload_id with
  | none => Except.error (PyError.abort 400 ("Missing upload_id in resumable_upload_chunk"))
  | some uid =>
    match uploadLookupE st uid with
    | Except.error e => Except.error e
    | Except.ok upload =>
      let upload := processChunk upload c
      let st := setUpload st upload
      if upload.complete then
        match checkObjectGeneration st upload.metadata.bucket upload.metadata.name upload.args with
        | Except.error e => Except.error e
        | Except.ok _ =>
          match objectCreate st upload.metadata upload.media {} with
          | Except.error e => Except.error e
          | Except.ok (st, obj) => Except.ok (st, UploadResponse.objectRest obj)
      else Except.ok (st, UploadResponse.statusRest upload.committed_size)

/-- A REST response as (status code, body). -/
structure HttpResponse where
  status : Nat
  body : String
  deriving Repr, DecidableEq

/-- `delete_resumable_upload` (src/server.py lines 589-595): missing
upload_id aborts 400; `gcs_upload.Upload.delete` (gcs_upload.py is not in
src/) is modelled from the spec: it frees the Upload and a missing id is
NotFound (section 8: a second cancel of the same id fails as NotFound);
the handler then answers with status 499 and an empty body. -/
def delete_resumable_upload (st : State) (upload_id : Option String) :
    Except PyError (State × HttpResponse) :=
  match upload_id with
  | none => Except.error (PyError.abort 400 ("Missing upload_id in delete_resumable_upload"))
  | some uid =>
    match uploadLookup st.uploads uid with
    | none => Except.error (PyError.abort 404 ("Upload not found"))
    | some _ =>
      Except.ok
        ({ st with uploads := st.uploads.filter (fun u => !(u.upload_id == uid)) },
         { status := 499, body := "" })

/-- Response of the bucket permission-test call. -/
structure TestIamPermissionsResponse where
  kind : String
  permissions : List String
  deriving Repr, DecidableEq

/-- `bucket_test_iam_permissions` (src/server.py lines 370-375): the bucket
is looked up (`gcs_bucket.Bucket.lookup` is not in src/ and is modelled
from the spec: NotFound when absent), then the requested permissions are
echoed back with the kind discriminator, without evaluation. -/
def bucket_test_iam_permissions (st : State) (bucket_name : String)
    (permissions : List String) : Except PyError TestIamPermissionsResponse :=
  if st.buckets.contains bucket_name then
    Except.ok { kind := "storage#testIamPermissionsResponse", permissions := permissions }
  else Except.error (PyError.abort 404 ("Bucket not found"))

/-- One entry of a compose request's `sourceObjects` list: the source name
(absent when the JSON entry has no name), an optional pinned generation,
and the optional `objectPreconditions.ifGenerationMatch` value. -/
structure SourceObject where
  name : Option String
  generation : Option Nat
  ifGenerationMatch : Option Nat
  deriving Repr, DecidableEq

/-- The decoded JSON body of a compose request: `sourceObjects` is `none`
when the field holds JSON null (the only case the code's `is None` check
catches), and `destination` is the caller's metadata template as a field
dictionary. -/
structure ComposePayload where
  sourceObjects : Option (List SourceObject)
  destination : List (String × String)
  deriving Repr, DecidableEq

/-- Python `dict.update`: entries of `upd` override those of `base`; keys
new to `base` are appended in `upd` order. -/
def dictUpdate (base upd : List (String × String)) : List (String × String) :=
  base.map (fun e =>
    (e.1, match upd.find? (fun f => f.1 == e.1) with
          | some f => f.2
          | none => e.2))
    ++ upd.filter (fun f => base.all (fun e => !(e.1 == f.1)))

/-- Field lookup in a metadata dictionary. -/
def lookupField (d : List (String × String)) (k : String) : Option String :=
  match d.find? (fun e => e.1 == k) with
  | some e => some e.2
  | none => none

/-- Modelled from the spec: ParseDict of a metadata dictionary into the
object resource record, keeping the fields this model tracks. -/
def parseMetadata (d : List (String × String)) : ObjectMetadata :=
  { bucket := match lookupField d ("bucket") with | some v => v | none => "",
    name := match lookupField d ("name") with | some v => v | none => "",
    generation := 0,
    metageneration := 0 }

/-- The per-source loop of `objects_compose` (src/server.py lines 410-426):
a source without a name aborts 400 (`Required.`); otherwise the source is
looked up honoring its pinned generation and `ifGenerationMatch`, and its
bytes are appended to the accumulated media. -/
def composeRead (st : State) (bucket_name : String) :
    List SourceObject → Except PyError Bytes
  | [] => Except.ok []
  | s :: rest =>
    match s.name with
    | none => Except.error (PyError.abort 400 ("Required."))
    | some n =>
      match objectLookup st bucket_name n s.generation s.ifGenerationMatch with
      | Except.error e => Except.error e
      | Except.ok obj =>
        match composeRead st bucket_name rest with
        | Except.error e => Except.error e
        | Except.ok restMedia => Except.ok (obj.media ++ restMedia)

/-- Whether a single compose source entry resolves: it has a name and its
lookup (with pinned generation and precondition) succeeds. -/
def sourceResolves (st : State) (bucket_name : String) (s : SourceObject) : Bool :=
  match s.name with
  | none => false
  | some n =>
    match objectLookup st bucket_name n s.generation s.ifGenerationMatch with
    | Except.ok _ => true
    | Except.error _ => false

/-- The bytes a resolving compose source entry contributes. -/
def sourceMedia (st : State) (bucket_name : String) (s : SourceObject) : Bytes :=
  match s.name with
  | none => []
  | some n =>
    match objectLookup st bucket_name n s.generation s.ifGenerationMatch with
    | Except.ok o => o.media
    | Except.error _ => []

/-- `objects_compose` (src/server.py lines 398-435): a `sourceObjects`
field holding JSON null aborts 400; more than 32 entries aborts 400; the
sources are read in order (each validated independently just before its
bytes are read); the destination metadata dictionary starts from the
required name and bucket fields and is then `dict.update`d with the
caller's `destination` template; the object is created through the normal
creation path with the request's query-parameter preconditions. -/
def objects_compose (st : State) (bucket_name object_name : String)
    (payload : ComposePayload) (args : PreconditionArgs) :
    Except PyError (State × StoredObject) :=
  match payload.sourceObjects with
  | none => Except.error (PyError.abort 400 ("You must provide at least one source component."))
  | some source_objects =>
    if source_objects.length > 32 then
      Except.error (PyError.abort 400
        ("The number of source components provided (" ++ toString source_objects.length ++
          ") exceeds the maximum (32)"))
    else
      match composeRead st bucket_name source_objects with
      | Except.error e => Except.error e
      | Except.ok composed_media =>
        let metadata := dictUpdate [("name", object_name), ("bucket", bucket_name)]
          payload.destination
        objectCreate st (parseMetadata metadata) composed_media args

/-- The stored entry at an exact registry key. -/
def objAt (st : State) (k : ObjKey) : Option StoredObject :=
  match st.objects.find? (fun e => decide (e.1 = k)) with
  | some e => some e.2
  | none => none

/-- Modelled from the spec: `gcs_object.Object.update` (gcs_object.py is
not in src/), section 3: an update mutates metadata only and increments
metageneration, never the generation or the bytes; the body fields lie
outside the metadata this model tracks. -/
def bumpMetageneration (o : StoredObject) : StoredObject :=
  { o with metadata := { o.metadata with metageneration := o.metadata.metageneration + 1 } }

/-- `objects_copy` (src/server.py lines 438-459): the source is looked up
honoring the caller's source-side generation selection; destination-side
preconditions are checked through the engine; then
`destination_metadata = source_obj.metadata` binds the very proto stored
for the source object, so the two field assignments of src lines 450-451
overwrite the stored source entry's bucket and name in place — the model
writes the mutated metadata back into the source's registry slot. The
destination object is then created from that metadata and the source's
bytes, and finally receives the body's metadata-only update. -/
def objects_copy (st : State)
    (source_bucket source_object destination_bucket destination_object : String)
    (sourceGeneration ifSourceGenerationMatch : Option Nat)
    (args : PreconditionArgs) : Except PyError (State × StoredObject) :=
  match objectLookup st source_bucket source_object sourceGeneration ifSourceGenerationMatch with
  | Except.error e => Except.error e
  | Except.ok source_obj =>
    match checkObjectGeneration st destination_bucket destination_object args with
    | Except.error e => Except.error e
    | Except.ok _ =>
      let destination_metadata :=
        { source_obj.metadata with bucket := destination_bucket, name := destination_object }
      let st :=
        { st with objects := st.objects.map (fun e =>
            if e.1.bucket == source_bucket && e.1.name == source_object &&
               e.1.generation == source_obj.metadata.generation
            then (e.1, { e.2 with metadata := destination_metadata })
            else e) }
      match objectCreate st destination_metadata source_obj.media args with
      | Except.error e => Except.error e
      | Except.ok (st, destination_obj) =>
        let destination_obj := bumpMetageneration destination_obj
        let st :=
          { st with objects := st.objects.map (fun e =>
              if e.1.bucket == destination_bucket && e.1.name == destination_object &&
                 e.1.generation == destination_obj.metadata.generation
              then (e.1, destination_obj)
              else e) }
        Except.ok (st, destination_obj)

/-- The success payload of a handler result, if any. -/
def okPart {α : Type} : Except PyError α → Option α
  | Except.ok a => some a
  | Except.error _ => none

/-- Concrete fixture: object "x" in bucket "a" with bytes "foo". -/
def objFoo : StoredObject :=
  { metadata := { bucket := "a", name := "x", generation := 1, metageneration := 1 },
    media := [102, 111, 111] }

/-- Concrete fixture: object "y" in bucket "a" with bytes "bar". -/
def objBar : StoredObject :=
  { metadata := { bucket := "a", name := "y", generation := 1, metageneration := 1 },
    media := [98, 97, 114] }

/-- Concrete fixture store: buckets "a" and "b", the two objects above, and
one fresh open resumable upload "u1" targeting bucket "a", name "n". -/
def stAB : State :=
  { buckets := ["a", "b"],
    objects := [(⟨"a", "x", 1⟩, objFoo), (⟨"a", "y", 1⟩, objBar)],
    genCounter := [(("a", "x"), 1), (("a", "y"), 1)],
    uploads := [newUpload { bucket := "a", name := "n", preconditions := {} } "u1"] }

/-- Concrete fixture: the empty store. -/
def emptyState : State :=
  { buckets := [], objects := [], genCounter := [], uploads := [] }

/-- A sequence of resumable chunk calls against the same upload id,
threading the store (each call is `resumable_upload_chunk`). -/
def runChunks (st : State) (uid : String) : List Chunk → Except PyError State
  | [] => Except.ok st
  | c :: rest =>
    match resumable_upload_chunk st (some uid) c with
    | Except.error e => Except.error e
    | Except.ok (st, _) => runChunks st uid rest

/-- Whether one stream message's upload-id reference (if any) resolves to a
registered, still-open upload. -/
def uploadRefOk (st : State) (m : InsertObjectRequest) : Bool :=
  match m.firstMessage with
  | some (FirstMessage.uploadId id) =>
    (match uploadLookup st.uploads id with
     | some u => !u.complete
     | none => false)
  | _ => true

/-- Every upload-id reference of the stream resolves to a registered,
still-open upload. -/
def uploadRefsOk (st : State) (msgs : List InsertObjectRequest) : Bool :=
  msgs.all (fun m => uploadRefOk st m)

/-- Whether the stream's first message sets the `first_message` oneof. -/
def firstSetsOneof (msgs : List InsertObjectRequest) : Bool :=
  match msgs with
  | [] => false
  | m :: _ => m.firstMessage.isSome

/-- The destination metadata a compose request materializes: the required
name and bucket fields updated by the caller's destination template. -/
def composeDestMetadata (bucket_name object_name : String) (payload : ComposePayload) :
    ObjectMetadata :=
  parseMetadata (dictUpdate [("name", object_name), ("bucket", bucket_name)] payload.destination)

/-- Concrete fixture: the upload spec of stAB's registered upload. -/
def specN : InsertSpec := { bucket := "a", name := "n", preconditions := {} }

/-- Concrete fixture: a stream message starting a new upload, two content
bytes, no finish flag. -/
def mSpec : InsertObjectRequest :=
  { firstMessage := some (FirstMessage.insertObjectSpec specN), content := [1, 2],
    finishWrite := false }

/-- Concrete fixture: a continuation message carrying one byte and the
finish flag. -/
def mFin : InsertObjectRequest :=
  { firstMessage := none, content := [3], finishWrite := true }

/-- Concrete fixture: a continuation message with no oneof and no finish. -/
def mNone : InsertObjectRequest :=
  { firstMessage := none, content := [7], finishWrite := false }

/-- Concrete fixture: two non-final chunks of sizes 2 and 3. -/
def chunksW : List Chunk :=
  [{ content := [1, 2], finalChunk := false }, { content := [3, 4, 5], finalChunk := false }]

/-- Concrete fixture: a compose source list of 33 identical named entries. -/
def srcs33 : List SourceObject :=
  List.replicate 33 { name := some ("x"), generation := none, ifGenerationMatch := none }

/-- Concrete fixture: an upload whose caller supplied ifGenerationMatch 5
at start time, with one byte already appended. -/
def uPre : Upload :=
  { upload_id := "u2",
    metadata := { bucket := "a", name := "n", generation := 0, metageneration := 0 },
    media := [9],
    committed_size := 1,
    complete := false,
    args := { ifGenerationMatch := some 5 } }

/-- Concrete fixture: stAB with uPre as its only upload. -/
def stPre : State := { stAB with uploads := [uPre] }

/-- Concrete fixture: a single stream message starting a new upload with an
ifGenerationMatch 5 precondition and the finish flag set. -/
def mPre : InsertObjectRequest :=
  { firstMessage := some (FirstMessage.insertObjectSpec
      { bucket := "a", name := "n", preconditions := { ifGenerationMatch := some 5 } }),
    content := [4], finishWrite := true }

/-! ### Helper lemmas -/

theorem uploadLookup_map_set (l : List Upload) (uid : String) (u u1 : Upload)
    (h : uploadLookup l uid = some u) (h1 : u1.upload_id = uid) :
    uploadLookup (l.map (fun v => if v.upload_id == u1.upload_id then u1 else v)) uid =
      some u1 := by
  induction l with
  | nil => simp [uploadLookup] at h
  | cons v t ih =>
    by_cases hv : v.upload_id = uid
    · simp [uploadLookup, hv, h1]
    · have hm : (v.upload_id == uid) = false := by simp [hv]
      have hcond : (v.upload_id == u1.upload_id) = false := by rw [h1]; exact hm
      simp only [uploadLookup, List.find?] at h
      rw [hm] at h
      have ht := ih h
      simp only [uploadLookup, List.map_cons, List.find?, hcond, Bool.false_eq_true, if_false]
      rw [hm]
      exact ht

theorem uploadLookup_filter_ne (l : List Upload) (uid : String) :
    uploadLookup (l.filter (fun u => !(u.upload_id == uid))) uid = none := by
  induction l with
  | nil => rfl
  | cons v t ih =>
    by_cases hv : v.upload_id = uid
    · simp [uploadLookup, List.filter, hv]
    · have hm : (v.upload_id == uid) = false := by simp [hv]
      simp [uploadLookup, List.filter, hm]

theorem checkObjectGeneration_error_abort (st : State) (b n : String)
    (args : PreconditionArgs) (e : PyError)
    (h : checkObjectGeneration st b n args = Except.error e) :
    e = PyError.abort 412 ("Precondition failed") := by
  unfold checkObjectGeneration at h
  split at h
  · exact ((Except.error.injEq _ _).mp h).symm ▸ rfl
  · exact absurd h (by simp)

theorem objectCreate_not_attr (st : State) (m : ObjectMetadata) (media : Bytes)
    (args : PreconditionArgs) :
    objectCreate st m media args ≠ Except.error PyError.attributeErrorNone := by
  unfold objectCreate
  cases h : checkObjectGeneration st m.bucket m.name args with
  | error e =>
    have := checkObjectGeneration_error_abort st m.bucket m.name args e h
    simp [this]
  | ok _ => simp

/-! ### Claim theorems -/

/-- C3: the spec claims a compose source list with zero entries is rejected
and more than 32 entries is rejected with InvalidArgument, both before any
destination object is created. The code only rejects a JSON-null
`sourceObjects` (its `is None` test) and a list longer than 32: an empty
list slips through both guards and a destination object with empty content
is created and returned. The first conjunct evaluates the code at the
failing input (sourceObjects = []); the others show the 33-entry and
JSON-null rejections the code does perform. -/
theorem objects_compose_zero_sources_not_rejected :
    okPart (objects_compose stAB ("a") ("dest")
        { sourceObjects := some [], destination := [] } {}) =
      some
        ({ stAB with
            genCounter := (("a", "dest"), 1) :: stAB.genCounter,
            objects := stAB.objects ++ [(⟨"a", "dest", 1⟩,
              { metadata := { bucket := "a", name := "dest", generation := 1, metageneration := 1 },
                media := [] })] },
         { metadata := { bucket := "a", name := "dest", generation := 1, metageneration := 1 },
           media := [] }) ∧
    objects_compose stAB ("a") ("dest") { sourceObjects := none, destination := [] } {} =
      Except.error (PyError.abort 400 ("You must provide at least one source component.")) ∧
    objects_compose stAB ("a") ("dest") { sourceObjects := some srcs33, destination := [] } {} =
      Except.error (PyError.abort 400
        ("The number of source components provided (33) exceeds the maximum (32)")) :=
  ⟨by decide, by decide, by decide⟩

/-- C6: the spec claims a copy leaves the source object completely
unchanged. In the code `destination_metadata = source_obj.metadata` binds
the stored source metadata itself, and the subsequent field assignments
rewrite its bucket and name in place, so after copying ("a","x") to
("b","y2") the entry still keyed ("a","x",1) reports bucket "b" and name
"y2". The destination does carry the source's exact bytes. -/
theorem objects_copy_rewrites_source_metadata :
    objAt stAB ⟨"a", "x", 1⟩ = some objFoo ∧
    (okPart (objects_copy stAB ("a") ("x") ("b") ("y2") none none {})).map
        (fun r => (objAt r.1 ⟨"a", "x", 1⟩, r.2)) =
      some
        (some { metadata := { bucket := "b", name := "y2", generation := 1, metageneration := 1 },
                media := [102, 111, 111] },
         { metadata := { bucket := "b", name := "y2", generation := 1, metageneration := 2 },
           media := [102, 111, 111] }) :=
  ⟨by decide, by decide⟩

/-- C8: deleting an open resumable upload by its upload id removes the
Upload from the registry and answers with the distinct non-2xx status 499
("request terminated"), never an ordinary success status. -/
theorem delete_resumable_upload_cancels (st : State) (uid : String) (u : Upload)
    (h : uploadLookup st.uploads uid = some u) :
    ∃ st' r, delete_resumable_upload st (some uid) = Except.ok (st', r) ∧
      r.status = 499 ∧ ¬ (200 ≤ r.status ∧ r.status < 300) ∧
      uploadLookup st'.uploads uid = none := by
  refine ⟨{ st with uploads := st.uploads.filter (fun u => !(u.upload_id == uid)) },
    { status := 499, body := "" }, ?_, rfl, by simp, ?_⟩
  · simp [delete_resumable_upload, h]
  · exact uploadLookup_filter_ne st.uploads uid

/-- Witness for C8 at a concrete store: cancelling the open upload "u1" of
stAB succeeds with status 499 and removes it. -/
theorem delete_resumable_upload_cancels_witness :
    ∃ st' r, delete_resumable_upload stAB (some ("u1")) = Except.ok (st', r) ∧
      r.status = 499 ∧ ¬ (200 ≤ r.status ∧ r.status < 300) ∧
      uploadLookup st'.uploads ("u1") = none :=
  delete_resumable_upload_cancels stAB ("u1") (newUpload specN ("u1")) (by decide)

/-- C9: the permission-test call on an existing bucket echoes back exactly
the requested permission list, in order, with the
testIamPermissionsResponse kind discriminator, without evaluating them. -/
theorem bucket_test_iam_permissions_echoes (st : State) (b : String) (perms : List String)
    (h : st.buckets.contains b = true) :
    bucket_test_iam_permissions st b perms =
      Except.ok { kind := "storage#testIamPermissionsResponse", permissions := perms } := by
  unfold bucket_test_iam_permissions
  rw [h]
  simp

/-- Witness for C9 at a concrete store and permission list. -/
theorem bucket_test_iam_permissions_echoes_witness :
    bucket_test_iam_permissions stAB ("a") ["storage.buckets.get", "storage.objects.list"] =
      Except.ok { kind := "storage#testIamPermissionsResponse",
                  permissions := ["storage.buckets.get", "storage.objects.list"] } :=
  bucket_test_iam_permissions_echoes stAB ("a")
    ["storage.buckets.get", "storage.objects.list"] (by decide)

theorem insertObjectLoop_plain (st : State) :
    ∀ (msgs : List InsertObjectRequest),
      (∀ m ∈ msgs, m.firstMessage = none) → (∀ m ∈ msgs, m.finishWrite = false) →
      ∀ u : Upload, u.complete = false → u.committed_size = u.media.length →
      ∃ u', insertObjectLoop st (some u) msgs = Except.ok (some u') ∧
        u'.complete = false ∧ u'.committed_size = u'.media.length ∧
        u'.committed_size = u.committed_size + (msgs.map (fun m => m.content.length)).sum := by
  intro msgs
  induction msgs with
  | nil =>
    intro _ _ u hc hlen
    exact ⟨u, rfl, hc, hlen, by simp⟩
  | cons m rest ih =>
    intro hfm hnf u hc hlen
    have hm0 : m.firstMessage = none := hfm m (by simp)
    have hw0 : m.finishWrite = false := hnf m (by simp)
    have hfm' : ∀ x ∈ rest, x.firstMessage = none := fun x hx => hfm x (by simp [hx])
    have hnf' : ∀ x ∈ rest, x.finishWrite = false := fun x hx => hnf x (by simp [hx])
    have step : insertObjectLoop st (some u) (m :: rest) =
        insertObjectLoop st (some { u with media := u.media ++ m.content, committed_size := (u.media ++ m.content).length }) rest := by
      simp only [insertObjectLoop, hm0, hw0, Bool.false_eq_true, if_false]
    rw [step]
    obtain ⟨u', hloop, hc', hlen', hsum⟩ := ih hfm' hnf'
      { u with media := u.media ++ m.content, committed_size := (u.media ++ m.content).length } hc rfl
    refine ⟨u', hloop, hc', hlen', ?_⟩
    rw [hsum]
    simp only [List.map_cons, List.sum_cons, List.length_append]
    rw [hlen]
    omega

theorem insertObjectLoop_open (st : State) :
    ∀ (msgs : List InsertObjectRequest) (u : Upload),
      (∀ m ∈ msgs, m.finishWrite = false) → uploadRefsOk st msgs = true →
      u.complete = false →
      ∃ u', insertObjectLoop st (some u) msgs = Except.ok (some u') ∧ u'.complete = false := by
  intro msgs
  induction msgs with
  | nil => intro u _ _ hc; exact ⟨u, rfl, hc⟩
  | cons m rest ih =>
    intro u hnf hrefs hc
    have hw0 : m.finishWrite = false := hnf m (by simp)
    have hnf' : ∀ x ∈ rest, x.finishWrite = false := fun x hx => hnf x (by simp [hx])
    have hrefs' : uploadRefsOk st rest = true := by
      simp only [uploadRefsOk, List.all_cons, Bool.and_eq_true] at hrefs
      exact hrefs.2
    have href0 : uploadRefOk st m = true := by
      simp only [uploadRefsOk, List.all_cons, Bool.and_eq_true] at hrefs
      exact hrefs.1
    cases hfm : m.firstMessage with
    | none =>
      have step : insertObjectLoop st (some u) (m :: rest) =
          insertObjectLoop st (some { u with media := u.media ++ m.content, committed_size := (u.media ++ m.content).length }) rest := by
        simp only [insertObjectLoop, hfm, hw0, Bool.false_eq_true, if_false]
      rw [step]
      exact ih _ hnf' hrefs' hc
    | some fm =>
      cases fm with
      | uploadId id =>
        simp only [uploadRefOk, hfm] at href0
        cases hlk : uploadLookup st.uploads id with
        | none => rw [hlk] at href0; simp at href0
        | some u2 =>
          rw [hlk] at href0
          simp only [Bool.not_eq_true'] at href0
          have hc2 : u2.complete = false := href0
          have step : insertObjectLoop st (some u) (m :: rest) =
              insertObjectLoop st (some { u2 with media := u2.media ++ m.content, committed_size := (u2.media ++ m.content).length }) rest := by
            simp only [insertObjectLoop, hfm, hlk, hw0, Bool.false_eq_true, if_false]
          rw [step]
          exact ih _ hnf' hrefs' hc2
      | insertObjectSpec s =>
        have step : insertObjectLoop st (some u) (m :: rest) =
            insertObjectLoop st (some { newUpload s ("") with media := (newUpload s ("")).media ++ m.content, committed_size := ((newUpload s ("")).media ++ m.content).length }) rest := by
          simp only [insertObjectLoop, hfm, hw0, Bool.false_eq_true, if_false]
        rw [step]
        exact ih _ hnf' hrefs' rfl

theorem insertObjectLoop_stop (st : State) (m : InsertObjectRequest)
    (hm : m.finishWrite = true) :
    ∀ (pre : List InsertObjectRequest) (rest : List InsertObjectRequest)
      (u? : Option Upload), (∀ p ∈ pre, p.finishWrite = false) →
      insertObjectLoop st u? (pre ++ m :: rest) = insertObjectLoop st u? (pre ++ [m]) := by
  intro pre
  induction pre with
  | nil =>
    intro rest u? _
    simp only [List.nil_append]
    cases u? with
    | none =>
      cases hfm : m.firstMessage with
      | none => simp only [insertObjectLoop, hfm]
      | some fm =>
        cases fm with
        | uploadId id =>
          cases hlk : uploadLookup st.uploads id with
          | none => simp only [insertObjectLoop, hfm, hlk]
          | some u2 => simp only [insertObjectLoop, hfm, hlk, hm, if_true]
        | insertObjectSpec s => simp only [insertObjectLoop, hfm, hm, if_true]
    | some u =>
      cases hfm : m.firstMessage with
      | none => simp only [insertObjectLoop, hfm, hm, if_true]
      | some fm =>
        cases fm with
        | uploadId id =>
          cases hlk : uploadLookup st.uploads id with
          | none => simp only [insertObjectLoop, hfm, hlk]
          | some u2 => simp only [insertObjectLoop, hfm, hlk, hm, if_true]
        | insertObjectSpec s => simp only [insertObjectLoop, hfm, hm, if_true]
  | cons p t ih =>
    intro rest u? hpre
    have hp0 : p.finishWrite = false := hpre p (by simp)
    have hpre' : ∀ x ∈ t, x.finishWrite = false := fun x hx => hpre x (by simp [hx])
    simp only [List.cons_append]
    cases u? with
    | none =>
      cases hfm : p.firstMessage with
      | none => simp only [insertObjectLoop, hfm]
      | some fm =>
        cases fm with
        | uploadId id =>
          cases hlk : uploadLookup st.uploads id with
          | none => simp only [insertObjectLoop, hfm, hlk]
          | some u2 =>
            simp only [insertObjectLoop, hfm, hlk, hp0, Bool.false_eq_true, if_false]
            exact ih rest _ hpre'
        | insertObjectSpec s =>
          simp only [insertObjectLoop, hfm, hp0, Bool.false_eq_true, if_false]
          exact ih rest _ hpre'
    | some u =>
      cases hfm : p.firstMessage with
      | none =>
        simp only [insertObjectLoop, hfm, hp0, Bool.false_eq_true, if_false]
        exact ih rest _ hpre'
      | some fm =>
        cases fm with
        | uploadId id =>
          cases hlk : uploadLookup st.uploads id with
          | none => simp only [insertObjectLoop, hfm, hlk]
          | some u2 =>
            simp only [insertObjectLoop, hfm, hlk, hp0, Bool.false_eq_true, if_false]
            exact ih rest _ hpre'
        | insertObjectSpec s =>
          simp only [insertObjectLoop, hfm, hp0, Bool.false_eq_true, if_false]
          exact ih rest _ hpre'

theorem insertObjectLoop_some_safe (st : State) :
    ∀ (msgs : List InsertObjectRequest) (u : Upload),
      insertObjectLoop st (some u) msgs ≠ Except.error PyError.attributeErrorNone ∧
      insertObjectLoop st (some u) msgs ≠ Except.ok none := by
  intro msgs
  induction msgs with
  | nil => intro u; exact ⟨by simp [insertObjectLoop], by simp [insertObjectLoop]⟩
  | cons m rest ih =>
    intro u
    cases hfm : m.firstMessage with
    | none =>
      cases hw : m.finishWrite with
      | true =>
        constructor <;> simp only [insertObjectLoop, hfm, hw, if_true] <;> simp
      | false =>
        simp only [insertObjectLoop, hfm, hw, Bool.false_eq_true, if_false]
        exact ih _
    | some fm =>
      cases fm with
      | uploadId id =>
        cases hlk : uploadLookup st.uploads id with
        | none =>
          constructor <;> simp only [insertObjectLoop, hfm, hlk] <;> simp
        | some u2 =>
          cases hw : m.finishWrite with
          | true =>
            constructor <;> simp only [insertObjectLoop, hfm, hlk, hw, if_true] <;> simp
          | false =>
            simp only [insertObjectLoop, hfm, hlk, hw, Bool.false_eq_true, if_false]
            exact ih _
      | insertObjectSpec s =>
        cases hw : m.finishWrite with
        | true =>
          constructor <;> simp only [insertObjectLoop, hfm, hw, if_true] <;> simp
        | false =>
          simp only [insertObjectLoop, hfm, hw, Bool.false_eq_true, if_false]
          exact ih _

theorem composeRead_resolves (st : State) (b : String) :
    ∀ l : List SourceObject, (∀ s ∈ l, sourceResolves st b s = true) →
      composeRead st b l = Except.ok ((l.map (fun s => sourceMedia st b s)).flatten) := by
  intro l
  induction l with
  | nil => intro _; simp [composeRead]
  | cons s rest ih =>
    intro hres
    have hs : sourceResolves st b s = true := hres s (by simp)
    have hrest : ∀ x ∈ rest, sourceResolves st b x = true := fun x hx => hres x (by simp [hx])
    cases hn : s.name with
    | none => simp [sourceResolves, hn] at hs
    | some n =>
      cases hlk : objectLookup st b n s.generation s.ifGenerationMatch with
      | error e =>
        exfalso
        simp only [sourceResolves, hn, hlk] at hs
        exact absurd hs (by simp)
      | ok o =>
        simp only [composeRead, hn, hlk, ih hrest, List.map_cons, List.flatten_cons]
        congr 1
        simp [sourceMedia, hn, hlk]

theorem composeRead_fails (st : State) (b : String) :
    ∀ l : List SourceObject, (∃ s ∈ l, sourceResolves st b s = false) →
      ∃ e, composeRead st b l = Except.error e := by
  intro l
  induction l with
  | nil => intro h; obtain ⟨s, hs, _⟩ := h; exact absurd hs (by simp)
  | cons s0 rest ih =>
    intro h
    cases hn : s0.name with
    | none => exact ⟨PyError.abort 400 ("Required."), by simp [composeRead, hn]⟩
    | some n =>
      cases hlk : objectLookup st b n s0.generation s0.ifGenerationMatch with
      | error e => exact ⟨e, by simp [composeRead, hn, hlk]⟩
      | ok o =>
        have hres0 : sourceResolves st b s0 = true := by simp [sourceResolves, hn, hlk]
        obtain ⟨s, hs, hfail⟩ := h
        have hsrest : s ∈ rest := by
          rcases List.mem_cons.mp hs with h1 | h1
          · exfalso; rw [h1] at hfail; rw [hfail] at hres0; exact absurd hres0 (by simp)
          · exact h1
        obtain ⟨e, he⟩ := ih ⟨s, hsrest, hfail⟩
        exact ⟨e, by simp [composeRead, hn, hlk, he]⟩

theorem runChunks_noFinal (uid : String) :
    ∀ (chunks : List Chunk), (∀ c ∈ chunks, c.finalChunk = false) →
      ∀ (st : State) (u : Upload), uploadLookup st.uploads uid = some u →
      u.upload_id = uid → u.complete = false → u.committed_size = u.media.length →
      ∃ st' u', runChunks st uid chunks = Except.ok st' ∧
        uploadLookup st'.uploads uid = some u' ∧ u'.upload_id = uid ∧
        u'.complete = false ∧ u'.committed_size = u'.media.length ∧
        u'.committed_size = u.committed_size + (chunks.map (fun c => c.content.length)).sum := by
  intro chunks
  induction chunks with
  | nil =>
    intro _ st u h hid hc hlen
    exact ⟨st, u, rfl, h, hid, hc, hlen, by simp⟩
  | cons c rest ih =>
    intro hnf st u h hid hc hlen
    have hcf : c.finalChunk = false := hnf c (by simp)
    have hnf' : ∀ x ∈ rest, x.finalChunk = false := fun x hx => hnf x (by simp [hx])
    have hproc : processChunk u c = { u with media := u.media ++ c.content, committed_size := (u.media ++ c.content).length, complete := false } := by
      simp [processChunk, hc, hcf]
    have hstep : resumable_upload_chunk st (some uid) c =
        Except.ok (setUpload st { u with media := u.media ++ c.content, committed_size := (u.media ++ c.content).length, complete := false },
          UploadResponse.statusRest (u.media ++ c.content).length) := by
      simp only [resumable_upload_chunk, uploadLookupE, h, hproc, Bool.false_eq_true, if_false]
    have hlkset : uploadLookup (setUpload st { u with media := u.media ++ c.content, committed_size := (u.media ++ c.content).length, complete := false }).uploads uid =
        some { u with media := u.media ++ c.content, committed_size := (u.media ++ c.content).length, complete := false } := by
      exact uploadLookup_map_set st.uploads uid u _ h hid
    obtain ⟨st', u', hrun, hlk', hid', hc', hlen', hsum⟩ :=
      ih hnf' (setUpload st { u with media := u.media ++ c.content, committed_size := (u.media ++ c.content).length, complete := false })
        { u with media := u.media ++ c.content, committed_size := (u.media ++ c.content).length, complete := false }
        hlkset hid rfl rfl
    refine ⟨st', u', ?_, hlk', hid', hc', hlen', ?_⟩
    · simp only [runChunks, hstep]
      exact hrun
    · rw [hsum]
      simp only [List.map_cons, List.sum_cons, List.length_append]
      rw [hlen]
      omega

/-- C1: for a fresh resumable or streamed upload, after any sequence of
non-final chunk appends of sizes s1..sk the upload's committed_size equals
s1+...+sk and it is still incomplete, and QueryWriteStatus returns exactly
(committed_size, complete) = (s1+...+sk, false). The first part runs the
REST chunk handler; the second runs the gRPC InsertObject message loop. -/
theorem committed_size_tracks_appends :
    (∀ (st : State) (uid : String) (spec : InsertSpec) (chunks : List Chunk),
       uploadLookup st.uploads uid = some (newUpload spec uid) →
       (∀ c ∈ chunks, c.finalChunk = false) →
       ∃ st', runChunks st uid chunks = Except.ok st' ∧
         ∃ u', uploadLookup st'.uploads uid = some u' ∧
           u'.committed_size = (chunks.map (fun c => c.content.length)).sum ∧
           u'.complete = false ∧
           queryWriteStatus st' uid =
             Except.ok ((chunks.map (fun c => c.content.length)).sum, false))
    ∧ (∀ (st : State) (s : InsertSpec) (m0 : InsertObjectRequest)
         (rest : List InsertObjectRequest),
       m0.firstMessage = some (FirstMessage.insertObjectSpec s) → m0.finishWrite = false →
       (∀ m ∈ rest, m.firstMessage = none) → (∀ m ∈ rest, m.finishWrite = false) →
       ∃ u', insertObjectLoop st none (m0 :: rest) = Except.ok (some u') ∧
         u'.committed_size = ((m0 :: rest).map (fun m => m.content.length)).sum ∧
         u'.complete = false) := by
  constructor
  · intro st uid spec chunks h hnf
    obtain ⟨st', u', hrun, hlk, hid, hc, hlen, hsum⟩ :=
      runChunks_noFinal uid chunks hnf st (newUpload spec uid) h rfl rfl rfl
    refine ⟨st', hrun, u', hlk, ?_, hc, ?_⟩
    · rw [hsum]; simp [newUpload]
    · simp only [queryWriteStatus, uploadLookupE, hlk]
      rw [hsum, hc]
      simp [newUpload]
  · intro st s m0 rest hfm hw hfm' hnf'
    have step : insertObjectLoop st none (m0 :: rest) =
        insertObjectLoop st (some { newUpload s ("") with media := (newUpload s ("")).media ++ m0.content, committed_size := ((newUpload s ("")).media ++ m0.content).length }) rest := by
      simp only [insertObjectLoop, hfm, hw, Bool.false_eq_true, if_false]
    rw [step]
    obtain ⟨u', hloop, hc', hlen', hsum⟩ := insertObjectLoop_plain st rest hfm' hnf'
      { newUpload s ("") with media := (newUpload s ("")).media ++ m0.content, committed_size := ((newUpload s ("")).media ++ m0.content).length } rfl rfl
    refine ⟨u', hloop, ?_, hc'⟩
    rw [hsum]
    simp [newUpload]

/-- Witness for C1: the fresh upload "u1" of stAB after non-final chunks of
sizes 2 and 3 reports committed_size 5 and complete false, and the gRPC
loop over a spec message plus a plain continuation reports the sum of the
content sizes. -/
theorem committed_size_tracks_appends_witness :
    (∃ st', runChunks stAB ("u1") chunksW = Except.ok st' ∧
      ∃ u', uploadLookup st'.uploads ("u1") = some u' ∧
        u'.committed_size = (chunksW.map (fun c => c.content.length)).sum ∧
        u'.complete = false ∧
        queryWriteStatus st' ("u1") =
          Except.ok ((chunksW.map (fun c => c.content.length)).sum, false)) ∧
    (∃ u', insertObjectLoop emptyState none (mSpec :: [mNone]) = Except.ok (some u') ∧
      u'.committed_size = ((mSpec :: [mNone]).map (fun m => m.content.length)).sum ∧
      u'.complete = false) :=
  ⟨committed_size_tracks_appends.1 stAB ("u1") specN chunksW (by decide) (by decide),
   committed_size_tracks_appends.2 emptyState specN mSpec [mNone]
     (by decide) (by decide) (by decide) (by decide)⟩

/-- C2 counterexample: a streamed-upload call whose stream is exhausted
without any finish flag — here the empty stream — fails with the unhandled
None-dereference (AttributeError), not with the InvalidArgument (400)
condition the claim requires. -/
theorem insertObject_empty_stream_attribute_error :
    insertObject emptyState [] = Except.error PyError.attributeErrorNone ∧
    insertObject emptyState [] ≠
      Except.error (PyError.abort 400 ("Request does not set finish_write")) :=
  ⟨rfl, by decide⟩

/-- C2 (amended): message processing stops at the first finish-flagged
message (messages after it never matter); and for a stream whose first
message sets the first_message oneof and whose upload-id references all
resolve to still-open uploads, exhaustion without a finish flag fails with
InvalidArgument ("Request does not set finish_write") and no object is
materialized. -/
theorem insertObject_finish_discipline :
    (∀ (st : State) (pre : List InsertObjectRequest) (m : InsertObjectRequest)
       (rest : List InsertObjectRequest),
       (∀ p ∈ pre, p.finishWrite = false) → m.finishWrite = true →
       insertObject st (pre ++ m :: rest) = insertObject st (pre ++ [m]))
    ∧ (∀ (st : State) (msgs : List InsertObjectRequest),
       firstSetsOneof msgs = true → uploadRefsOk st msgs = true →
       (∀ p ∈ msgs, p.finishWrite = false) →
       insertObject st msgs =
         Except.error (PyError.abort 400 ("Request does not set finish_write"))) := by
  constructor
  · intro st pre m rest hpre hm
    unfold insertObject
    rw [insertObjectLoop_stop st m hm pre rest none hpre]
  · intro st msgs hfirst hrefs hnf
    cases msgs with
    | nil => simp [firstSetsOneof] at hfirst
    | cons m0 rest =>
      have hw0 : m0.finishWrite = false := hnf m0 (by simp)
      have hnf' : ∀ x ∈ rest, x.finishWrite = false := fun x hx => hnf x (by simp [hx])
      have hrefs' : uploadRefsOk st rest = true := by
        simp only [uploadRefsOk, List.all_cons, Bool.and_eq_true] at hrefs
        exact hrefs.2
      have href0 : uploadRefOk st m0 = true := by
        simp only [uploadRefsOk, List.all_cons, Bool.and_eq_true] at hrefs
        exact hrefs.1
      cases hfm : m0.firstMessage with
      | none => simp [firstSetsOneof, hfm] at hfirst
      | some fm =>
        cases fm with
        | uploadId id =>
          simp only [uploadRefOk, hfm] at href0
          cases hlk : uploadLookup st.uploads id with
          | none => rw [hlk] at href0; simp at href0
          | some u2 =>
            rw [hlk] at href0
            simp only [Bool.not_eq_true'] at href0
            have step : insertObjectLoop st none (m0 :: rest) =
                insertObjectLoop st (some { u2 with media := u2.media ++ m0.content, committed_size := (u2.media ++ m0.content).length }) rest := by
              simp only [insertObjectLoop, hfm, hlk, hw0, Bool.false_eq_true, if_false]
            obtain ⟨u', hloop, hc'⟩ := insertObjectLoop_open st rest
              { u2 with media := u2.media ++ m0.content, committed_size := (u2.media ++ m0.content).length }
              hnf' hrefs' href0
            unfold insertObject
            rw [step, hloop]
            simp [hc']
        | insertObjectSpec sp =>
          have step : insertObjectLoop st none (m0 :: rest) =
              insertObjectLoop st (some { newUpload sp ("") with media := (newUpload sp ("")).media ++ m0.content, committed_size := ((newUpload sp ("")).media ++ m0.content).length }) rest := by
            simp only [insertObjectLoop, hfm, hw0, Bool.false_eq_true, if_false]
          obtain ⟨u', hloop, hc'⟩ := insertObjectLoop_open st rest
            { newUpload sp ("") with media := (newUpload sp ("")).media ++ m0.content, committed_size := ((newUpload sp ("")).media ++ m0.content).length }
            hnf' hrefs' rfl
          unfold insertObject
          rw [step, hloop]
          simp [hc']

/-- Witness for C2 (amended): with a finish-flagged message present, a
trailing junk message changes nothing; and a spec-starting stream with no
finish flag fails with the InvalidArgument condition. -/
theorem insertObject_finish_discipline_witness :
    insertObject stAB ([mSpec] ++ mFin :: [mNone]) = insertObject stAB ([mSpec] ++ [mFin]) ∧
    insertObject stAB [mSpec] =
      Except.error (PyError.abort 400 ("Request does not set finish_write")) :=
  ⟨insertObject_finish_discipline.1 stAB [mSpec] mFin [mNone] (by decide) (by decide),
   insertObject_finish_discipline.2 stAB [mSpec] (by decide) (by decide) (by decide)⟩

theorem insertObject_post_safe (st : State) (msgs : List InsertObjectRequest)
    (h1 : insertObjectLoop st none msgs ≠ Except.error PyError.attributeErrorNone)
    (h2 : insertObjectLoop st none msgs ≠ Except.ok none) :
    insertObject st msgs ≠ Except.error PyError.attributeErrorNone := by
  unfold insertObject
  cases hr : insertObjectLoop st none msgs with
  | error e =>
    simp only []
    intro hcon
    have he : e = PyError.attributeErrorNone := by simpa using hcon
    rw [he] at hr
    exact h1 hr
  | ok uo =>
    cases uo with
    | none => exact absurd hr h2
    | some u =>
      by_cases hc : u.complete
      · simp only [hc, Bool.not_true, Bool.false_eq_true, if_false]
        exact objectCreate_not_attr st u.metadata u.media u.args
      · simp only [Bool.not_eq_true] at hc
        simp [hc]

theorem insertObjectLoop_first_some (st : State) (m : InsertObjectRequest)
    (rest : List InsertObjectRequest) (fm : FirstMessage)
    (hfm : m.firstMessage = some fm) :
    insertObjectLoop st none (m :: rest) ≠ Except.error PyError.attributeErrorNone ∧
    insertObjectLoop st none (m :: rest) ≠ Except.ok none := by
  cases fm with
  | uploadId id =>
    cases hlk : uploadLookup st.uploads id with
    | none => constructor <;> simp [insertObjectLoop, hfm, hlk]
    | some u2 =>
      cases hw : m.finishWrite with
      | true => constructor <;> simp [insertObjectLoop, hfm, hlk, hw]
      | false =>
        have step : insertObjectLoop st none (m :: rest) =
            insertObjectLoop st (some { u2 with media := u2.media ++ m.content, committed_size := (u2.media ++ m.content).length }) rest := by
          simp only [insertObjectLoop, hfm, hlk, hw, Bool.false_eq_true, if_false]
        rw [step]
        exact insertObjectLoop_some_safe st rest _
  | insertObjectSpec sp =>
    cases hw : m.finishWrite with
    | true => constructor <;> simp [insertObjectLoop, hfm, hw]
    | false =>
      have step : insertObjectLoop st none (m :: rest) =
          insertObjectLoop st (some { newUpload sp ("") with media := (newUpload sp ("")).media ++ m.content, committed_size := ((newUpload sp ("")).media ++ m.content).length }) rest := by
        simp only [insertObjectLoop, hfm, hw, Bool.false_eq_true, if_false]
      rw [step]
      exact insertObjectLoop_some_safe st rest _

/-- C10: the gRPC InsertObject handler dereferences the unset upload (the
Python None) when the stream is empty or when the first message sets
neither variant of the first_message oneof, failing with an unhandled
AttributeError instead of a well-formed error response; and whenever the
first message does set one of the two variants, that dereference can never
happen. -/
theorem insertObject_requires_first_message :
    (∀ st : State, insertObject st [] = Except.error PyError.attributeErrorNone)
    ∧ (∀ (st : State) (m : InsertObjectRequest) (rest : List InsertObjectRequest),
        m.firstMessage = none →
        insertObject st (m :: rest) = Except.error PyError.attributeErrorNone)
    ∧ (∀ (st : State) (m : InsertObjectRequest) (rest : List InsertObjectRequest)
         (fm : FirstMessage), m.firstMessage = some fm →
        insertObject st (m :: rest) ≠ Except.error PyError.attributeErrorNone) := by
  refine ⟨fun st => rfl, ?_, ?_⟩
  · intro st m rest hfm
    simp [insertObject, insertObjectLoop, hfm]
  · intro st m rest fm hfm
    obtain ⟨h1, h2⟩ := insertObjectLoop_first_some st m rest fm hfm
    exact insertObject_post_safe st (m :: rest) h1 h2

/-- Witness for C10: a first message with no oneof set yields the
None-dereference error, while a spec-starting stream never does. -/
theorem insertObject_requires_first_message_witness :
    insertObject emptyState [mNone] = Except.error PyError.attributeErrorNone ∧
    insertObject emptyState [mSpec, mFin] ≠ Except.error PyError.attributeErrorNone :=
  ⟨insertObject_requires_first_message.2.1 emptyState mNone [] (by decide),
   insertObject_requires_first_message.2.2 emptyState mSpec [mFin]
     (FirstMessage.insertObjectSpec specN) (by decide)⟩

/-- C5: each compose source is validated independently (name present,
pinned generation, ifGenerationMatch) before its bytes are read; when any
named source fails to resolve — it does not exist or its precondition
fails — the whole compose fails with an error and no destination object is
ever produced (no state change is observable). -/
theorem objects_compose_fails_on_bad_source (st : State)
    (bucket_name object_name : String) (payload : ComposePayload)
    (args : PreconditionArgs) (sources : List SourceObject) (s : SourceObject) (n : String)
    (hsrc : payload.sourceObjects = some sources) (hhi : sources.length ≤ 32)
    (hs : s ∈ sources) (_hname : s.name = some n)
    (hfail : sourceResolves st bucket_name s = false) :
    (∃ e, objects_compose st bucket_name object_name payload args = Except.error e) ∧
    ∀ r, objects_compose st bucket_name object_name payload args ≠ Except.ok r := by
  obtain ⟨e, he⟩ := composeRead_fails st bucket_name sources ⟨s, hs, hfail⟩
  have hnot : ¬ sources.length > 32 := by omega
  have hmain : objects_compose st bucket_name object_name payload args = Except.error e := by
    unfold objects_compose
    rw [hsrc]
    simp only [if_neg hnot, he]
  exact ⟨⟨e, hmain⟩, fun r hcon => by rw [hmain] at hcon; exact Except.noConfusion hcon⟩

/-- Witness for C5: composing the existing "x" with a missing "z" in
bucket "a" of stAB fails and creates nothing. -/
theorem objects_compose_fails_on_bad_source_witness :
    (∃ e, objects_compose stAB ("a") ("dest")
        { sourceObjects := some [{ name := some ("x"), generation := none, ifGenerationMatch := none },
                                 { name := some ("z"), generation := none, ifGenerationMatch := none }],
          destination := [] } {} = Except.error e) ∧
    ∀ r, objects_compose stAB ("a") ("dest")
        { sourceObjects := some [{ name := some ("x"), generation := none, ifGenerationMatch := none },
                                 { name := some ("z"), generation := none, ifGenerationMatch := none }],
          destination := [] } {} ≠ Except.ok r :=
  objects_compose_fails_on_bad_source stAB ("a") ("dest")
    { sourceObjects := some [{ name := some ("x"), generation := none, ifGenerationMatch := none },
                             { name := some ("z"), generation := none, ifGenerationMatch := none }],
      destination := [] } {}
    [{ name := some ("x"), generation := none, ifGenerationMatch := none },
     { name := some ("z"), generation := none, ifGenerationMatch := none }]
    { name := some ("z"), generation := none, ifGenerationMatch := none } ("z")
    (by decide) (by decide) (by decide) (by decide) (by decide)

/-- C4: a successful compose of an ordered source list (1 to 32 entries,
all resolving, destination preconditions passing) produces a destination
object whose bytes are the concatenation of the sources' bytes in list
order, whose metadata is the required name and bucket fields updated with
the caller's destination template, and which is created through the normal
object-creation path: it receives the next generation for its key and is
appended to the store. -/
theorem objects_compose_concatenates (st : State) (bucket_name object_name : String)
    (payload : ComposePayload) (args : PreconditionArgs) (sources : List SourceObject)
    (hsrc : payload.sourceObjects = some sources)
    (hlo : 1 ≤ sources.length) (hhi : sources.length ≤ 32)
    (hres : ∀ s ∈ sources, sourceResolves st bucket_name s = true)
    (hpre : checkObjectGeneration st
      (composeDestMetadata bucket_name object_name payload).bucket
      (composeDestMetadata bucket_name object_name payload).name args = Except.ok ()) :
    ∃ st' o, objects_compose st bucket_name object_name payload args = Except.ok (st', o) ∧
      o.media = (sources.map (fun s => sourceMedia st bucket_name s)).flatten ∧
      o.metadata = { composeDestMetadata bucket_name object_name payload with
        generation := lastGeneration st
          (composeDestMetadata bucket_name object_name payload).bucket
          (composeDestMetadata bucket_name object_name payload).name + 1,
        metageneration := 1 } ∧
      st'.objects = st.objects ++
        [(⟨(composeDestMetadata bucket_name object_name payload).bucket,
           (composeDestMetadata bucket_name object_name payload).name,
           o.metadata.generation⟩, o)] := by
  have hread := composeRead_resolves st bucket_name sources hres
  have hnot : ¬ sources.length > 32 := by omega
  have hpre' : checkObjectGeneration st
      (parseMetadata (dictUpdate [("name", object_name), ("bucket", bucket_name)]
        payload.destination)).bucket
      (parseMetadata (dictUpdate [("name", object_name), ("bucket", bucket_name)]
        payload.destination)).name args = Except.ok () := hpre
  unfold objects_compose
  rw [hsrc]
  simp only [if_neg hnot, hread]
  unfold objectCreate
  rw [hpre']
  exact ⟨_, _, rfl, rfl, rfl, rfl⟩

/-- Witness for C4: composing "x" (bytes "foo") then "y" (bytes "bar") of
bucket "a" yields a destination with bytes "foobar" and the merged
metadata, appended with a fresh generation. -/
theorem objects_compose_concatenates_witness :
    ∃ st' o, objects_compose stAB ("a") ("dest")
        { sourceObjects := some [{ name := some ("x"), generation := none, ifGenerationMatch := none },
                                 { name := some ("y"), generation := none, ifGenerationMatch := none }],
          destination := [] } {} = Except.ok (st', o) ∧
      o.media = ([{ name := some ("x"), generation := none, ifGenerationMatch := none },
                  { name := some ("y"), generation := none, ifGenerationMatch := none }].map
        (fun s => sourceMedia stAB ("a") s)).flatten ∧
      o.metadata = { composeDestMetadata ("a") ("dest")
          { sourceObjects := some [{ name := some ("x"), generation := none, ifGenerationMatch := none },
                                   { name := some ("y"), generation := none, ifGenerationMatch := none }],
            destination := [] } with
        generation := lastGeneration stAB
          (composeDestMetadata ("a") ("dest")
            { sourceObjects := some [{ name := some ("x"), generation := none, ifGenerationMatch := none },
                                     { name := some ("y"), generation := none, ifGenerationMatch := none }],
              destination := [] }).bucket
          (composeDestMetadata ("a") ("dest")
            { sourceObjects := some [{ name := some ("x"), generation := none, ifGenerationMatch := none },
                                     { name := some ("y"), generation := none, ifGenerationMatch := none }],
              destination := [] }).name + 1,
        metageneration := 1 } ∧
      st'.objects = stAB.objects ++
        [(⟨(composeDestMetadata ("a") ("dest")
              { sourceObjects := some [{ name := some ("x"), generation := none, ifGenerationMatch := none },
                                       { name := some ("y"), generation := none, ifGenerationMatch := none }],
                destination := [] }).bucket,
           (composeDestMetadata ("a") ("dest")
              { sourceObjects := some [{ name := some ("x"), generation := none, ifGenerationMatch := none },
                                       { name := some ("y"), generation := none, ifGenerationMatch := none }],
                destination := [] }).name,
           o.metadata.generation⟩, o)] :=
  objects_compose_concatenates stAB ("a") ("dest")
    { sourceObjects := some [{ name := some ("x"), generation := none, ifGenerationMatch := none },
                             { name := some ("y"), generation := none, ifGenerationMatch := none }],
      destination := [] } {}
    [{ name := some ("x"), generation := none, ifGenerationMatch := none },
     { name := some ("y"), generation := none, ifGenerationMatch := none }]
    (by decide) (by decide) (by decide) (by decide) (by decide)

theorem checkObjectGeneration_setUpload (st : State) (u : Upload) (b n : String)
    (args : PreconditionArgs) :
    checkObjectGeneration (setUpload st u) b n args = checkObjectGeneration st b n args := rfl

/-- C7: materializing a completed upload always passes through the
Generation & Precondition Engine for the target key, so preconditions
captured when the upload started can fail at completion time: a final
resumable chunk on an upload whose ifGenerationMatch disagrees with the
key's current generation is rejected with PreconditionFailed (412), and so
is a finish-flagged gRPC stream whose spec carried such a precondition. -/
theorem materialization_checks_preconditions :
    (∀ (st : State) (uid : String) (u : Upload) (c : Chunk) (g : Nat),
       uploadLookup st.uploads uid = some u → u.upload_id = uid →
       c.finalChunk = true → u.args.ifGenerationMatch = some g →
       currentGeneration st u.metadata.bucket u.metadata.name ≠ g →
       resumable_upload_chunk st (some uid) c =
         Except.error (PyError.abort 412 ("Precondition failed")))
    ∧ (∀ (st : State) (sp : InsertSpec) (m0 : InsertObjectRequest) (g : Nat),
       m0.firstMessage = some (FirstMessage.insertObjectSpec sp) → m0.finishWrite = true →
       sp.preconditions.ifGenerationMatch = some g →
       currentGeneration st sp.bucket sp.name ≠ g →
       insertObject st [m0] = Except.error (PyError.abort 412 ("Precondition failed"))) := by
  constructor
  · intro st uid u c g h hid hcf hargs hne
    have hb : (currentGeneration st u.metadata.bucket u.metadata.name != g) = true :=
      bne_iff_ne.mpr hne
    have hproc : processChunk u c = { u with media := u.media ++ c.content, committed_size := (u.media ++ c.content).length, complete := true } := by
      simp [processChunk, hcf]
    have hchk : checkObjectGeneration st u.metadata.bucket u.metadata.name u.args =
        Except.error (PyError.abort 412 ("Precondition failed")) := by
      unfold checkObjectGeneration
      rw [if_pos ?hcond]
      case hcond =>
        simp only [preconditionsFail, failsMatch, hargs, hb, Bool.true_or]
    simp only [resumable_upload_chunk, uploadLookupE, h, hproc, if_true]
    rw [checkObjectGeneration_setUpload]
    simp only [hchk]
  · intro st sp m0 g hfm hw hargs hne
    have hb : (currentGeneration st sp.bucket sp.name != g) = true := bne_iff_ne.mpr hne
    have hchk : checkObjectGeneration st sp.bucket sp.name sp.preconditions =
        Except.error (PyError.abort 412 ("Precondition failed")) := by
      unfold checkObjectGeneration
      rw [if_pos ?hcond2]
      case hcond2 =>
        simp only [preconditionsFail, failsMatch, hargs, hb, Bool.true_or]
    simp only [insertObject, insertObjectLoop, hfm, hw, if_true, Bool.not_true,
      Bool.false_eq_true, if_false, objectCreate, newUpload]
    simp only [hchk]

/-- Witness for C7: upload "u2" of stPre (ifGenerationMatch 5 captured at
start, current generation of ("a","n") is 0) fails its final chunk with
412, and so does the finish-flagged gRPC stream mPre on stAB. -/
theorem materialization_checks_preconditions_witness :
    resumable_upload_chunk stPre (some ("u2")) { content := [], finalChunk := true } =
      Except.error (PyError.abort 412 ("Precondition failed")) ∧
    insertObject stAB [mPre] = Except.error (PyError.abort 412 ("Precondition failed")) :=
  ⟨materialization_checks_preconditions.1 stPre ("u2") uPre
     { content := [], finalChunk := true } 5
     (by decide) (by decide) (by decide) (by decide) (by decide),
   materialization_checks_preconditions.2 stAB
     { bucket := "a", name := "n", preconditions := { ifGenerationMatch := some 5 } }
     mPre 5 (by decide) (by decide) (by decide) (by decide)⟩
